import Mathlib

/-!
Shallow embedding of `src/SecretSantaGenerator.jsx` (a React Secret Santa
application) and proofs about its assignment generator and workflow state
machine.

Modelling conventions
  - A JS participant object is `PartObj`: its `name`/`email` properties are
    `Option String` (`none` models the property being absent / `undefined`).
  - A slot of the `participants` array is `Option PartObj`: `none` models an
    array hole (created only by out-of-range assignment in
    `handleParticipantChange`); `some o` is an object reference.
  - JS object identity (the `===` comparison on line 110 of the source) is
    modelled by tagging every slot with its index in the original
    `participants` array: the code only ever creates a fresh object per slot
    (`Array(n).fill().map(() => ({...}))` and the object literals in
    `handleParticipantChange`), so two slots at distinct indices are never the
    same reference, and the original index identifies the reference.  A
    reference is therefore a pair `Ref = Nat × Option PartObj`.
  - `Math.floor(Math.random() * (i + 1))` is modelled by an arbitrary random
    source `rnd : Nat → Nat → Nat` (`rnd a i` is the raw draw of shuffle pass
    `a` at loop index `i`), reduced mod `i + 1` exactly as the multiplication
    by `i + 1` bounds the JS value.
-/

/-! Permutation facts about the shuffle and the retry loop. -/

/-- Fields of a participant object that `handleParticipantChange` can update
(the computed key `[field]` on line 63 of the source is only ever called with
the literals `'name'` and `'email'`). -/
inductive FieldKey
  | name
  | email
deriving DecidableEq

/-- A JS participant object: `{name, email}`.  A property is `none` when the
object does not carry it (spread of `undefined` on line 62 produces an object
with only the assigned field). -/
structure PartObj where
  name : Option String
  email : Option String
deriving DecidableEq

/-- A slot of the `participants` array together with the index it occupied in
the original (unshuffled) array; the tag models the JS object reference, see
the module docstring. -/
abbrev Ref := Nat × Option PartObj

/-- The `eventDetails` state object (all three fields are controlled string
inputs, lines 14-18 of the source). -/
structure EventDetails where
  participantCount : String
  exchangeDate : String
  budget : String
deriving DecidableEq

/-- One element of the `assignments` array built on lines 124-127:
`{ giver, receiver }`, both object references. -/
structure Assignment where
  giver : Ref
  receiver : Ref
deriving DecidableEq

/-- Swap the elements at positions `i` and `j` of a list, the JS destructuring
swap `[a[i], a[j]] = [a[j], a[i]]` (lines 101 and 113 of the source).  Out of
range positions leave the list unchanged (never hit by the shuffle loop). -/
def listSwap {α : Type} (l : List α) (i j : Nat) : List α :=
  match l[i]?, l[j]? with
  | some a, some b => (l.set i b).set j a
  | _, _ => l

/-- The body of the Fisher-Yates loop of lines 99-102 / 111-114, iterating the
index `i` from `l.length - 1` down to `1`: at each `i` it swaps position `i`
with position `r i % (i + 1)` (the JS draw `Math.floor(Math.random()*(i+1))`
is a uniform value in `[0, i]`, recovered here from the raw draw `r i`). -/
def fyGo {α : Type} (r : Nat → Nat) : List α → Nat → List α
  | l, 0 => l
  | l, i + 1 => fyGo r (listSwap l (i + 1) (r (i + 1) % (i + 1 + 1))) i

/-- One full Fisher-Yates shuffle pass over a list (lines 99-102 of the
source; re-run verbatim on lines 111-114 inside the retry loop). -/
def fisherYates {α : Type} (r : Nat → Nat) (l : List α) : List α :=
  fyGo r l (l.length - 1)

/-- JS `===` on two slots of the shuffled/original arrays.  Distinct objects
are never equal; an object is equal only to itself (same original index);
`undefined === undefined` is true, so two holes compare equal regardless of
their tags. -/
def refEq (a b : Ref) : Bool :=
  (a.2.isNone && b.2.isNone) || a.1 == b.1

/-- The fixed-point test of line 110:
`shuffled.some((person, index) => person === participants[index])`.
`shuffled` is a permutation of `orig` hence has the same length, so the
positional comparison is a `zip`. -/
def hasFixedPoint (orig s : List Ref) : Bool :=
  (s.zip orig).any fun pq => refEq pq.1 pq.2

/-- The retry budget `maxAttempts` of line 106. -/
def maxAttempts : Nat := 100

/-- The retry loop of lines 105-116:
`while (shuffled.some(fixed point) && attempts < maxAttempts) { reshuffle;
attempts++ }`.  `fuel` is `maxAttempts - attempts`, so the guard
`attempts < maxAttempts` is `fuel > 0`.  Reshuffle number `a` (the one that
sets `attempts` to `a`) draws from `rnd a`; the initial shuffle outside the
loop used `rnd 0`.  Returns the final `shuffled` and `attempts`. -/
def santaLoop (rnd : Nat → Nat → Nat) (orig : List Ref) :
    List Ref → Nat → Nat → List Ref × Nat
  | s, attempts, 0 => (s, attempts)
  | s, attempts, fuel + 1 =>
    if hasFixedPoint orig s then
      santaLoop rnd orig (fisherYates (rnd (attempts + 1)) s) (attempts + 1) fuel
    else
      (s, attempts)

/-- The `participants` array viewed as an array of references: the slot at
index `k` tagged with `k`. -/
def tagged (participants : List (Option PartObj)) : List Ref :=
  participants.enum

/-- The assignment generator, lines 93-127 of the source: copy `participants`
into `shuffled`, shuffle once, reshuffle while a fixed point remains and
`attempts < 100`, throw (here: `none`) when `attempts === maxAttempts`, else
pair `participants[k]` as giver with `shuffled[k]` as receiver. -/
def generateAssignments (rnd : Nat → Nat → Nat)
    (participants : List (Option PartObj)) : Option (List Assignment) :=
  let orig := tagged participants
  let start := fisherYates (rnd 0) orig
  let res := santaLoop rnd orig start 0 maxAttempts
  if res.2 == maxAttempts then
    none
  else
    some ((orig.zip res.1).map fun gr => ⟨gr.1, gr.2⟩)

/-- The component state of lines 11-27: `step`, `eventDetails`,
`participants`, `error`, `sending`. -/
structure SessionState where
  step : Nat
  eventDetails : EventDetails
  participants : List (Option PartObj)
  error : String
  sending : Bool
deriving DecidableEq

/-- The initial state set up by the `useState` calls on lines 11-27. -/
def initialState : SessionState :=
  { step := 1, eventDetails := ⟨"", "", ""⟩, participants := [],
    error := "", sending := false }

/-- JS truthiness of a string: only the empty string is falsy. -/
def truthyStr (s : String) : Bool := !(s == "")

/-- JS truthiness of an optional string property: `undefined` and `""` are
falsy. -/
def truthyProp (x : Option String) : Bool := truthyStr (x.getD "")

/-- JS `s || d` for strings: `d` when `s` is empty, else `s`. -/
def jsOrS (s d : String) : String := if s == "" then d else s

/-- JS `x || d` where `x` is an optional string (`data.message` on line 146
may be absent): `d` when absent or empty. -/
def jsOrO (x : Option String) (d : String) : String := jsOrS (x.getD "") d

/-- Model of `parseInt` on line 43, restricted to the decimal digit strings a
`type="number"` input produces; `none` models the values on which
`Array(parseInt(...))` would throw (`NaN` length). -/
def parseCount (s : String) : Option Nat :=
  if s.data ≠ [] && s.data.all Char.isDigit then
    some (s.data.foldl (fun n c => n * 10 + (c.toNat - 48)) 0)
  else none

/-- The handler `handleEventDetailsSubmit` (lines 30-53): reject when any of
the three event fields is falsy (empty), otherwise allocate
`participantCount` blank participants, move to step 2 and clear the error.
`none` models the uncaught exception of `Array(NaN)` on a non-numeric count
(unreachable from a number input). -/
def handleEventDetailsSubmit (s : SessionState) : Option SessionState :=
  if !truthyStr s.eventDetails.participantCount
      || !truthyStr s.eventDetails.exchangeDate
      || !truthyStr s.eventDetails.budget then
    some { s with error := "Please fill in all fields" }
  else
    match parseCount s.eventDetails.participantCount with
    | none => none
    | some n =>
      some { s with
        participants := List.replicate n (some ⟨some "", some ""⟩),
        step := 2,
        error := "" }

/-- Write one field of a participant object, the computed-key property
`[field]: value` of line 63. -/
def setField (o : PartObj) : FieldKey → String → PartObj
  | .name, v => { o with name := some v }
  | .email, v => { o with email := some v }

/-- Read one field of an array slot; a hole reads as `undefined` and
`undefined` has no properties, so every field of it reads as absent. -/
def getField : Option PartObj → FieldKey → Option String
  | none, _ => none
  | some o, .name => o.name
  | some o, .email => o.email

/-- The handler `handleParticipantChange` (lines 56-68):
`updated = [...participants]; updated[index] = {...updated[index], [field]:
value}`.  In range, the slot is replaced by the spread-updated object.  Out
of range, the JS index assignment grows the array to `index + 1`, the skipped
positions being holes, and the spread of the `undefined` read yields an
object carrying only the assigned field. -/
def handleParticipantChange (ps : List (Option PartObj)) (index : Nat)
    (field : FieldKey) (value : String) : List (Option PartObj) :=
  let newObj := setField ((ps.getD index none).getD ⟨none, none⟩) field value
  if index < ps.length then
    ps.set index (some newObj)
  else
    ps ++ List.replicate (index - ps.length) none ++ [some newObj]

/-- The session-level update operation: `handleParticipantChange` stores the
updated array back with `setParticipants` (line 67). -/
def updateParticipant (s : SessionState) (index : Nat) (field : FieldKey)
    (value : String) : SessionState :=
  { s with participants := handleParticipantChange s.participants index field value }

/-- A character matched by the regex class `[^\s@]` of line 73. -/
def validChar (c : Char) : Bool := !c.isWhitespace && !(c == '@')

/-- Does the character list have a `'.'` at a position that is neither first
nor last?  For a list of `[^\s@]` characters this is exactly matching
`[^\s@]+\.[^\s@]+` (the class includes `'.'`, so the two sides only need to
be non-empty). -/
def hasInnerDot (l : List Char) : Bool :=
  match l with
  | [] => false
  | _ :: t => t.dropLast.contains '.'

/-- The validator `validateEmail` (lines 71-74): the regex
`/^[^\s@]+@[^\s@]+\.[^\s@]+$/` holds exactly when some position carries `'@'`
with a non-empty all-`[^\s@]` prefix before it and an all-`[^\s@]` suffix
after it containing an inner dot (the `'@'` is then unique, both sides
excluding it). -/
def validateEmail (email : String) : Bool :=
  let cs := email.toList
  (List.range cs.length).any fun ai =>
    cs.getD ai '@' == '@'
      && (let before := cs.take ai
          let after := cs.drop (ai + 1)
          !before.isEmpty && before.all validChar
            && after.all validChar && hasInnerDot after)

/-- Does an array slot trip the completeness check of line 79,
`p => !p.name || !p.email`?  `Array.prototype.some` skips holes, so a hole
never trips it. -/
def incompleteSlot : Option PartObj → Bool
  | none => false
  | some p => !truthyProp p.name || !truthyProp p.email

/-- Does an array slot trip the email check of line 85,
`p => !validateEmail(p.email)`?  Holes are skipped by `some`; when this check
runs the previous check has passed so `p.email` is a non-empty string, read
here with `""` standing for the (unreachable) absent property. -/
def badEmailSlot : Option PartObj → Bool
  | none => false
  | some p => !validateEmail (p.email.getD "")

/-- The JSON body `{success, message?}` the collaborator answers with
(lines 142-147). -/
structure DispatchResponse where
  success : Bool
  message : Option String
deriving DecidableEq

/-- Outcome of the `fetch` + `response.json()` pair: either a parsed response
object, or a raised error (network failure / non-JSON body) carrying the
raised error's message. -/
inductive DispatchOutcome
  | ok (resp : DispatchResponse)
  | threw (msg : String)
deriving DecidableEq

/-- The payload posted to the collaborator on lines 130-139:
`{assignments, eventDetails}`. -/
structure DispatchCall where
  assignments : List Assignment
  eventDetails : EventDetails
deriving DecidableEq

/-- Result of one run of the `generateAssignments` handler: the new component
state, the call made to the dispatch collaborator if any, and whether the
shuffling code (lines 94-127) ran at all. -/
structure GenDispatchResult where
  state : SessionState
  dispatched : Option DispatchCall
  generatorRan : Bool
deriving DecidableEq

/-- The async handler `generateAssignments` (lines 77-165), with the external
`fetch`/`json` pair abstracted as the `dispatch` oracle.  The two validation
checks return early with an error message; otherwise `sending` is set, the
generator runs, and the single `catch` of lines 158-164 turns any raised
error into `setError(error.message || 'Failed to send assignments. Please
try again.')` plus `setSending(false)`.  A `success: false` response raises
`Error(data.message || 'Failed to send emails')` (line 146); a successful
response clears `sending`, moves to step 3 and clears the error. -/
def generateAssignmentsHandler (rnd : Nat → Nat → Nat)
    (dispatch : DispatchCall → DispatchOutcome) (s : SessionState) :
    GenDispatchResult :=
  if s.participants.any incompleteSlot then
    ⟨{ s with error := "Please fill in all participant details" }, none, false⟩
  else if s.participants.any badEmailSlot then
    ⟨{ s with error := "Please enter valid email addresses" }, none, false⟩
  else
    match generateAssignments rnd s.participants with
    | none =>
      ⟨{ s with
          error := jsOrS "Could not generate valid assignments. Please try again."
            "Failed to send assignments. Please try again.",
          sending := false }, none, true⟩
    | some assignments =>
      let call : DispatchCall := ⟨assignments, s.eventDetails⟩
      match dispatch call with
      | .threw m =>
        ⟨{ s with
            error := jsOrS m "Failed to send assignments. Please try again.",
            sending := false }, some call, true⟩
      | .ok resp =>
        if resp.success then
          ⟨{ s with sending := false, step := 3, error := "" }, some call, true⟩
        else
          ⟨{ s with
              error := jsOrS (jsOrO resp.message "Failed to send emails")
                "Failed to send assignments. Please try again.",
              sending := false }, some call, true⟩

/-- The user-level generate-and-dispatch operation: the `Generate & Send
Assignments` button (lines 271-286) is rendered only when `step === 2` and is
`disabled={sending}` (line 273), so a user invocation at another step or
while a dispatch is in flight never reaches the handler and changes
nothing. -/
def generateAndDispatch (rnd : Nat → Nat → Nat)
    (dispatch : DispatchCall → DispatchOutcome) (s : SessionState) :
    GenDispatchResult :=
  if s.step == 2 && !s.sending then
    generateAssignmentsHandler rnd dispatch s
  else
    ⟨s, none, false⟩

/-- The straight-line sequence of shuffle results: entry `0` is the initial
shuffle of lines 99-102 applied to the reference array, entry `a` the result
of the `a`-th reshuffle of lines 111-114; the retry loop walks this sequence
while fixed points persist. -/
def attemptState (rnd : Nat → Nat → Nat) (orig : List Ref) : Nat → List Ref
  | 0 => fisherYates (rnd 0) orig
  | a + 1 => fisherYates (rnd (a + 1)) (attemptState rnd orig a)

/-- A random source that always draws 0: each Fisher-Yates step swaps with
position 0. -/
def rndZero : Nat → Nat → Nat := fun _ _ => 0

/-- Two fully filled, distinct participants. -/
def wParticipants : List (Option PartObj) :=
  [some ⟨some "Alice", some "alice@mail.com"⟩,
   some ⟨some "Bob", some "bob@mail.com"⟩]

/-- The assignment list `generateAssignments rndZero wParticipants` produces:
the one-swap shuffle succeeds immediately. -/
def wAssignments : List Assignment :=
  [⟨(0, some ⟨some "Alice", some "alice@mail.com"⟩),
    (1, some ⟨some "Bob", some "bob@mail.com"⟩)⟩,
   ⟨(1, some ⟨some "Bob", some "bob@mail.com"⟩),
    (0, some ⟨some "Alice", some "alice@mail.com"⟩)⟩]

/-- A random source under which every shuffle pass up to number 99 is the
identity (each step draws `j = i`) and pass number 100 swaps through
position 0. -/
def rndLate : Nat → Nat → Nat := fun a i => if a < 100 then i else 0

/-- A single fully filled participant. -/
def wSingle : List (Option PartObj) := [some ⟨some "Solo", some "s@s.st"⟩]

/-- Two participants with identical name and email. -/
def dupParticipants : List (Option PartObj) :=
  [some ⟨some "Twin", some "t@t.tw"⟩, some ⟨some "Twin", some "t@t.tw"⟩]

/-- The successful result of `generateAssignments rndZero dupParticipants`:
each twin gives to the other. -/
def dupAssignments : List Assignment :=
  [⟨(0, some ⟨some "Twin", some "t@t.tw"⟩), (1, some ⟨some "Twin", some "t@t.tw"⟩)⟩,
   ⟨(1, some ⟨some "Twin", some "t@t.tw"⟩), (0, some ⟨some "Twin", some "t@t.tw"⟩)⟩]

/-- A dispatch oracle that always reports success. -/
def dispOk : DispatchCall → DispatchOutcome := fun _ => .ok ⟨true, none⟩

/-- A state at step 2, filled participants, with a dispatch in flight. -/
def busyState : SessionState :=
  { step := 2, eventDetails := ⟨"2", "2024-12-25", "50"⟩,
    participants := wParticipants, error := "", sending := true }

/-- A state at step 2 whose participants are complete but one email fails
the shape check. -/
def badEmailState : SessionState :=
  { step := 2, eventDetails := ⟨"2", "2024-12-25", "50"⟩,
    participants := [some ⟨some "A", some "bad-email"⟩,
                     some ⟨some "B", some "b@c.de"⟩],
    error := "", sending := false }

/-- A collaborator that reports failure without a message. -/
def dispFailNoMsg : DispatchCall → DispatchOutcome := fun _ => .ok ⟨false, none⟩

/-- A collaborator that reports failure with message `"quota exceeded"`. -/
def dispQuota : DispatchCall → DispatchOutcome :=
  fun _ => .ok ⟨false, some "quota exceeded"⟩

/-- A valid step-2 state with two complete, well-formed participants. -/
def okState : SessionState :=
  { step := 2, eventDetails := ⟨"2", "2024-12-25", "50"⟩,
    participants := wParticipants, error := "", sending := false }

/-- A step-1 state whose event details carry the count `"0"`. -/
def zeroCountState : SessionState :=
  { step := 1, eventDetails := ⟨"0", "2024-12-25", "50"⟩,
    participants := [], error := "", sending := false }

/-- Moving an element across a middle segment and back: the two cons-middle
lists are permutations of each other. -/
theorem cons_middle_swap {α : Type} (a b : α) (m r : List α) :
    List.Perm (a :: (m ++ b :: r)) (b :: (m ++ a :: r)) := by
  have h1 : List.Perm (m ++ b :: r) (b :: (m ++ r)) := List.perm_middle
  have h2 : List.Perm (m ++ a :: r) (a :: (m ++ r)) := List.perm_middle
  exact (h1.cons a).trans ((List.Perm.swap b a (m ++ r)).trans (h2.symm.cons b))

/-- Writing `l[j]` at position `i` and `l[i]` at position `j` permutes the
list. -/
theorem set_set_perm {α : Type} : ∀ (l : List α) (i j : Nat) (hi : i < l.length)
    (hj : j < l.length), List.Perm ((l.set i (l.get ⟨j, hj⟩)).set j (l.get ⟨i, hi⟩)) l
  | [], i, _, hi, _ => absurd hi (by simp)
  | x :: t, 0, 0, _, _ => by simp
  | x :: t, 0, m + 1, hi, hj => by
    have hm : m < t.length := by simpa using hj
    simp only [List.get_eq_getElem, List.getElem_cons_zero, List.getElem_cons_succ,
      List.set_cons_zero, List.set_cons_succ]
    rw [List.set_eq_take_cons_drop x hm]
    conv_rhs => rw [← List.take_append_drop m t, ← List.get_drop_eq_drop t m hm]
    exact cons_middle_swap (t.get ⟨m, hm⟩) x (t.take m) (t.drop (m + 1))
  | x :: t, n + 1, 0, hi, hj => by
    have hn : n < t.length := by simpa using hi
    simp only [List.get_eq_getElem, List.getElem_cons_zero, List.getElem_cons_succ,
      List.set_cons_zero, List.set_cons_succ]
    rw [List.set_eq_take_cons_drop x hn]
    conv_rhs => rw [← List.take_append_drop n t, ← List.get_drop_eq_drop t n hn]
    exact cons_middle_swap (t.get ⟨n, hn⟩) x (t.take n) (t.drop (n + 1))
  | x :: t, n + 1, m + 1, hi, hj => by
    have hn : n < t.length := by simpa using hi
    have hm : m < t.length := by simpa using hj
    simp only [List.get_eq_getElem, List.getElem_cons_succ, List.set_cons_succ]
    exact (set_set_perm t n m hn hm).cons x

/-- `listSwap` permutes the list. -/
theorem listSwap_perm {α : Type} (l : List α) (i j : Nat) :
    List.Perm (listSwap l i j) l := by
  unfold listSwap
  cases h1 : l[i]? with
  | none => exact List.Perm.refl l
  | some a =>
    cases h2 : l[j]? with
    | none => exact List.Perm.refl l
    | some b =>
      obtain ⟨hi, ha⟩ := List.getElem?_eq_some.mp h1
      obtain ⟨hj, hb⟩ := List.getElem?_eq_some.mp h2
      subst ha; subst hb
      exact set_set_perm l i j hi hj

/-- Every partial Fisher-Yates pass permutes the list. -/
theorem fyGo_perm {α : Type} (r : Nat → Nat) :
    ∀ (n : Nat) (l : List α), List.Perm (fyGo r l n) l
  | 0, l => List.Perm.refl l
  | i + 1, l =>
    (fyGo_perm r i _).trans (listSwap_perm l (i + 1) (r (i + 1) % (i + 1 + 1)))

/-- A full Fisher-Yates pass permutes the list. -/
theorem fisherYates_perm {α : Type} (r : Nat → Nat) (l : List α) :
    List.Perm (fisherYates r l) l :=
  fyGo_perm r (l.length - 1) l

/-- The retry loop only reshuffles, so its final list permutes its input. -/
theorem santaLoop_perm (rnd : Nat → Nat → Nat) (orig : List Ref) :
    ∀ (fuel : Nat) (s : List Ref) (a : Nat),
      List.Perm (santaLoop rnd orig s a fuel).1 s := by
  intro fuel
  induction fuel with
  | zero => intro s a; exact List.Perm.refl s
  | succ n ih =>
    intro s a
    cases h : hasFixedPoint orig s with
    | true =>
      simp only [santaLoop, h, if_pos]
      exact (ih _ _).trans (fisherYates_perm _ s)
    | false => simp [santaLoop, h]

/-- The retry loop either runs out of budget (its counter reaches
`a + fuel`) or stops at a list without fixed points. -/
theorem santaLoop_attempts (rnd : Nat → Nat → Nat) (orig : List Ref) :
    ∀ (fuel : Nat) (s : List Ref) (a : Nat),
      (santaLoop rnd orig s a fuel).2 = a + fuel ∨
        hasFixedPoint orig (santaLoop rnd orig s a fuel).1 = false := by
  intro fuel
  induction fuel with
  | zero => intro s a; exact Or.inl rfl
  | succ n ih =>
    intro s a
    cases h : hasFixedPoint orig s with
    | true =>
      simp only [santaLoop, h, if_pos]
      rcases ih (fisherYates (rnd (a + 1)) s) (a + 1) with h1 | h1
      · exact Or.inl (by omega)
      · exact Or.inr h1
    | false => simp [santaLoop, h]

/-- Started on the straight-line sequence at position `a` with `fuel` budget
left, the loop spends its whole budget exactly when every budgeted state
still has a fixed point. -/
theorem santaLoop_exhaust_iff (rnd : Nat → Nat → Nat) (orig : List Ref) :
    ∀ (fuel a : Nat),
      ((santaLoop rnd orig (attemptState rnd orig a) a fuel).2 = a + fuel ↔
        ∀ k, k < fuel → hasFixedPoint orig (attemptState rnd orig (a + k)) = true) := by
  intro fuel
  induction fuel with
  | zero => intro a; simp [santaLoop]
  | succ n ih =>
    intro a
    cases h : hasFixedPoint orig (attemptState rnd orig a) with
    | true =>
      have hstep : fisherYates (rnd (a + 1)) (attemptState rnd orig a) =
          attemptState rnd orig (a + 1) := rfl
      simp only [santaLoop, h, if_pos, hstep]
      constructor
      · intro H k hk
        match k, hk with
        | 0, _ => simpa using h
        | k + 1, hk =>
          have hH : (santaLoop rnd orig (attemptState rnd orig (a + 1)) (a + 1) n).2
              = (a + 1) + n := by omega
          have hres := (ih (a + 1)).mp hH k (by omega)
          have harith : a + 1 + k = a + (k + 1) := by omega
          rw [harith] at hres
          exact hres
      · intro H
        have hforall : ∀ k, k < n →
            hasFixedPoint orig (attemptState rnd orig (a + 1 + k)) = true := by
          intro k hk
          have hres := H (k + 1) (by omega)
          have harith : a + (k + 1) = a + 1 + k := by omega
          rw [harith] at hres
          exact hres
        have := (ih (a + 1)).mpr hforall
        omega
    | false =>
      simp only [santaLoop, h]
      have hred : (if (false = true) then
          santaLoop rnd orig (fisherYates (rnd (a + 1)) (attemptState rnd orig a)) (a + 1) n
        else (attemptState rnd orig a, a)) = (attemptState rnd orig a, a) := by
        simp
      rw [hred]
      constructor
      · intro H
        exact absurd H (by omega)
      · intro H
        have h0 := H 0 (by omega)
        rw [Nat.add_zero] at h0
        exact absurd h0 (by simp [h])

/-- The reference array has the same length as the participants array. -/
theorem tagged_length (ps : List (Option PartObj)) :
    (tagged ps).length = ps.length := List.enum_length

/-- Nat `==` is symmetric. -/
theorem natBeq_comm (a b : Nat) : (a == b) = (b == a) := by
  by_cases h : a = b
  · subst h; rfl
  · have h1 : (a == b) = false := by simpa using h
    have h2 : (b == a) = false := by simpa using (Ne.symm h)
    rw [h1, h2]

/-- JS `===` on slots is symmetric. -/
theorem refEq_comm (a b : Ref) : refEq a b = refEq b a := by
  unfold refEq
  rw [Bool.and_comm, natBeq_comm]

/-- Success of the generator: the result pairs the reference array with a
fixed-point-free permutation of it. -/
theorem generateAssignments_eq_some {rnd : Nat → Nat → Nat}
    {ps : List (Option PartObj)} {as : List Assignment}
    (h : generateAssignments rnd ps = some as) :
    ∃ s : List Ref, List.Perm s (tagged ps) ∧
      hasFixedPoint (tagged ps) s = false ∧
      as = ((tagged ps).zip s).map fun gr => ⟨gr.1, gr.2⟩ := by
  unfold generateAssignments at h
  by_cases hb : (santaLoop rnd (tagged ps) (fisherYates (rnd 0) (tagged ps)) 0
      maxAttempts).2 == maxAttempts
  · simp only [hb, if_pos] at h
    exact Option.noConfusion h
  · simp only [hb, if_neg, Bool.not_eq_true] at h
    have h2 := Option.some.inj h
    refine ⟨(santaLoop rnd (tagged ps) (fisherYates (rnd 0) (tagged ps)) 0
      maxAttempts).1, ?_, ?_, h2.symm⟩
    · exact (santaLoop_perm rnd (tagged ps) maxAttempts _ 0).trans
        (fisherYates_perm (rnd 0) (tagged ps))
    · rcases santaLoop_attempts rnd (tagged ps) maxAttempts
        (fisherYates (rnd 0) (tagged ps)) 0 with h1 | h1
      · exact absurd (by simpa using h1) (by simpa using hb)
      · exact h1

/-- Claim C1: whenever the assignment generator succeeds on a participant
sequence of length `n`, it returns exactly `n` assignments whose givers are
the original participants in their original order, whose receiver multiset
equals the giver multiset (a true permutation), and in which no assignment
pairs a giver with itself (`===` on the original slots, i.e. no slot is
paired with its own original position). -/
theorem santa_C1 (rnd : Nat → Nat → Nat) (ps : List (Option PartObj))
    (as : List Assignment) (h : generateAssignments rnd ps = some as) :
    as.length = ps.length ∧
    as.map Assignment.giver = tagged ps ∧
    List.Perm (as.map Assignment.receiver) (as.map Assignment.giver) ∧
    ∀ (k : Nat) (hk : k < as.length),
      refEq (as[k]).giver (as[k]).receiver = false := by
  obtain ⟨s, hperm, hfix, has⟩ := generateAssignments_eq_some h
  have hlens : s.length = (tagged ps).length := hperm.length_eq
  have hzlen : ((tagged ps).zip s).length = (tagged ps).length := by
    simp [List.length_zip, hlens]
  have hgiver : as.map Assignment.giver = tagged ps := by
    subst has
    rw [List.map_map]
    have hfun : (Assignment.giver ∘ fun gr : Ref × Ref => Assignment.mk gr.1 gr.2)
        = Prod.fst := by
      funext gr; rfl
    rw [hfun]
    exact List.map_fst_zip (tagged ps) s (by omega)
  have hrecv : as.map Assignment.receiver = s := by
    subst has
    rw [List.map_map]
    have hfun : (Assignment.receiver ∘ fun gr : Ref × Ref => Assignment.mk gr.1 gr.2)
        = Prod.snd := by
      funext gr; rfl
    rw [hfun]
    exact List.map_snd_zip (tagged ps) s (by omega)
  refine ⟨?_, hgiver, ?_, ?_⟩
  · have := congrArg List.length hgiver
    simpa [tagged_length] using this
  · rw [hrecv, hgiver]
    exact hperm
  · intro k hk
    have hk2 : k < (tagged ps).length := by
      have := congrArg List.length hgiver
      simp only [List.length_map] at this
      omega
    have hk3 : k < s.length := by omega
    have hak : as[k] = Assignment.mk ((tagged ps).get ⟨k, hk2⟩) (s.get ⟨k, hk3⟩) := by
      subst has
      simp [List.getElem_zip]
    have hmem : ((s.get ⟨k, hk3⟩), ((tagged ps).get ⟨k, hk2⟩)) ∈ s.zip (tagged ps) := by
      have hz : (s.zip (tagged ps)).get ⟨k, by simp [List.length_zip]; omega⟩
          = ((s.get ⟨k, hk3⟩), ((tagged ps).get ⟨k, hk2⟩)) := List.getElem_zip
      rw [← hz]
      exact List.getElem_mem _
    have hnot := (List.any_eq_false.mp hfix) _ hmem
    rw [hak]
    simp only [Assignment.mk.injEq]
    rw [refEq_comm]
    simpa using hnot

/-- Witness for C1 at a concrete successful run. -/
theorem santa_C1_witness :
    wAssignments.length = wParticipants.length ∧
    wAssignments.map Assignment.giver = tagged wParticipants :=
  ⟨(santa_C1 rndZero wParticipants wAssignments rfl).1,
   (santa_C1 rndZero wParticipants wAssignments rfl).2.1⟩

/-- When the current list is a fixed point of every reshuffle and still
contains a `===` fixed point, the retry loop spins until its budget is
gone. -/
theorem santaLoop_stuck (rnd : Nat → Nat → Nat) (orig s : List Ref)
    (hfix : hasFixedPoint orig s = true)
    (hshuf : ∀ k, fisherYates (rnd k) s = s) :
    ∀ (fuel a : Nat), santaLoop rnd orig s a fuel = (s, a + fuel) := by
  intro fuel
  induction fuel with
  | zero => intro a; rfl
  | succ n ih =>
    intro a
    simp only [santaLoop, hfix, if_pos, hshuf (a + 1)]
    rw [ih (a + 1)]
    have : a + 1 + n = a + (n + 1) := by omega
    rw [this]

/-- Claim C8: on a one-participant sequence the generator always fails, for
every sequence of random draws: the only shuffle of a singleton is the
identity, which is always a fixed point, so the budget is exhausted and the
code throws (`AssignmentExhausted`). -/
theorem santa_C8 (rnd : Nat → Nat → Nat) (x : Option PartObj) :
    generateAssignments rnd [x] = none := by
  show (if (santaLoop rnd (tagged [x]) (fisherYates (rnd 0) (tagged [x])) 0
      maxAttempts).2 == maxAttempts then none
    else some (((tagged [x]).zip (santaLoop rnd (tagged [x])
      (fisherYates (rnd 0) (tagged [x])) 0 maxAttempts).1).map
        fun gr => Assignment.mk gr.1 gr.2)) = none
  have h1 : tagged [x] = [(0, x)] := rfl
  have h2 : fisherYates (rnd 0) [(0, x)] = [(0, x)] := rfl
  have hfix : hasFixedPoint [(0, x)] [(0, x)] = true := by
    simp [hasFixedPoint, refEq]
  rw [h1, h2, santaLoop_stuck rnd [(0, x)] [(0, x)] hfix (fun _ => rfl)]
  rfl

/-- Claim C2 (amended): the generator fails exactly when the initial shuffle
and each of the first 99 reshuffles still contains a fixed point; the 100th
reshuffle is performed but its result never examined. -/
theorem santa_C2_amended (rnd : Nat → Nat → Nat) (ps : List (Option PartObj)) :
    generateAssignments rnd ps = none ↔
      ∀ a, a < maxAttempts →
        hasFixedPoint (tagged ps) (attemptState rnd (tagged ps) a) = true := by
  have h0 : attemptState rnd (tagged ps) 0 = fisherYates (rnd 0) (tagged ps) := rfl
  have hkey := santaLoop_exhaust_iff rnd (tagged ps) maxAttempts 0
  rw [h0] at hkey
  show (if (santaLoop rnd (tagged ps) (fisherYates (rnd 0) (tagged ps)) 0
      maxAttempts).2 == maxAttempts then none
    else some (((tagged ps).zip (santaLoop rnd (tagged ps)
      (fisherYates (rnd 0) (tagged ps)) 0 maxAttempts).1).map
        fun gr => Assignment.mk gr.1 gr.2)) = none ↔ _
  by_cases hb : (santaLoop rnd (tagged ps) (fisherYates (rnd 0) (tagged ps)) 0
      maxAttempts).2 = maxAttempts
  · have hbeq : ((santaLoop rnd (tagged ps) (fisherYates (rnd 0) (tagged ps)) 0
        maxAttempts).2 == maxAttempts) = true := by simpa using hb
    simp only [hbeq, if_pos, true_iff]
    have hall := hkey.mp (by omega)
    intro a ha
    have := hall a ha
    simpa using this
  · have hbeq : ((santaLoop rnd (tagged ps) (fisherYates (rnd 0) (tagged ps)) 0
        maxAttempts).2 == maxAttempts) = false := by simpa using hb
    simp only [hbeq, Bool.false_eq_true, if_false]
    constructor
    · intro hcontra
      exact Option.noConfusion hcontra
    · intro hall
      have := hkey.mpr (fun k hk => by simpa using hall k hk)
      omega

set_option maxRecDepth 4000 in
/-- Counterexample to claim C2 as stated: on two participants under
`rndLate`, the loop performs all 100 budgeted reshuffles and the 100th one
(the last state the budget paid for) is a derangement, so a derangement was
found within the 100-attempt budget — yet the generator fails, because line
119 throws whenever `attempts === maxAttempts` without examining the final
shuffle. -/
theorem santa_C2_counterexample :
    generateAssignments rndLate wParticipants = none ∧
    hasFixedPoint (tagged wParticipants)
      (attemptState rndLate (tagged wParticipants) maxAttempts) = false := by
  constructor
  · decide
  · decide

set_option maxRecDepth 8000 in
/-- Witness for the amended C2 at a concrete input: a singleton participant
list keeps a fixed point at every attempt, and the amended equivalence yields
the failure. -/
theorem santa_C2_witness : generateAssignments rndZero wSingle = none :=
  (santa_C2_amended rndZero wSingle).mpr (by decide)

/-- Claim C6: the fixed-point check compares receivers to givers by
positional identity of the original sequence, not by value.  First, in every
successful run each assignment's giver and receiver occupy distinct original
indices (only an element at its own original slot is a forbidden fixed
point).  Second, on a concrete input with two value-identical participants,
a run succeeds pairing one as giver with the other as receiver: equal
name/email values, distinct original indices. -/
theorem santa_C6 :
    (∀ (rnd : Nat → Nat → Nat) (ps : List (Option PartObj)) (as : List Assignment),
      generateAssignments rnd ps = some as →
      ∀ (k : Nat) (hk : k < as.length), (as[k]).giver.1 ≠ (as[k]).receiver.1) ∧
    (generateAssignments rndZero dupParticipants = some dupAssignments ∧
      (dupAssignments.get ⟨0, by decide⟩).giver.2 =
        (dupAssignments.get ⟨0, by decide⟩).receiver.2 ∧
      (dupAssignments.get ⟨0, by decide⟩).giver.1 ≠
        (dupAssignments.get ⟨0, by decide⟩).receiver.1) := by
  constructor
  · intro rnd ps as h k hk
    obtain ⟨s, hperm, hfix, has⟩ := generateAssignments_eq_some h
    have hlens : s.length = (tagged ps).length := hperm.length_eq
    have hk2 : k < (tagged ps).length := by
      subst has
      simp only [List.length_map, List.length_zip] at hk
      omega
    have hk3 : k < s.length := by omega
    have hak : as[k] = Assignment.mk ((tagged ps).get ⟨k, hk2⟩) (s.get ⟨k, hk3⟩) := by
      subst has
      simp [List.getElem_zip]
    have hmem : ((s.get ⟨k, hk3⟩), ((tagged ps).get ⟨k, hk2⟩)) ∈ s.zip (tagged ps) := by
      have hz : (s.zip (tagged ps)).get ⟨k, by simp [List.length_zip]; omega⟩
          = ((s.get ⟨k, hk3⟩), ((tagged ps).get ⟨k, hk2⟩)) := List.getElem_zip
      rw [← hz]
      exact List.getElem_mem _
    have hnot := (List.any_eq_false.mp hfix) _ hmem
    simp only [Bool.not_eq_true] at hnot
    simp only [refEq, Bool.or_eq_false_iff] at hnot
    have hne : (s.get ⟨k, hk3⟩).1 ≠ ((tagged ps).get ⟨k, hk2⟩).1 := by simpa using hnot.2
    rw [hak]
    exact fun he => hne he.symm
  · refine ⟨by decide, by decide, by decide⟩

/-- Witness for C6: in the concrete duplicate-value run, assignment 0 pairs
original index 0 with original index 1. -/
theorem santa_C6_witness :
    (dupAssignments.get ⟨0, by decide⟩).giver.1 ≠
      (dupAssignments.get ⟨0, by decide⟩).receiver.1 :=
  santa_C6.1 rndZero dupParticipants dupAssignments (by decide) 0 (by decide)

/-- Claim C3: while the dispatch-in-progress flag is set, an invocation of
the generate-and-dispatch operation is a no-op: the state is returned
unchanged, the shuffling code never runs and the collaborator is never
called. -/
theorem santa_C3 (rnd : Nat → Nat → Nat) (dispatch : DispatchCall → DispatchOutcome)
    (s : SessionState) (h : s.sending = true) :
    generateAndDispatch rnd dispatch s = ⟨s, none, false⟩ := by
  unfold generateAndDispatch
  rw [h]
  simp

/-- Witness for C3 at the concrete busy state. -/
theorem santa_C3_witness :
    generateAndDispatch rndZero dispOk busyState = ⟨busyState, none, false⟩ :=
  santa_C3 rndZero dispOk busyState rfl

/-- Claim C4: with a participant list in which no entry trips the
completeness check but some entry trips the email-shape check, the operation
fails with the invalid-email message before any shuffling or any
collaborator call, leaving step and the sending flag unchanged; and whenever
some entry trips the completeness check, that check takes precedence. -/
theorem santa_C4 (rnd : Nat → Nat → Nat) (dispatch : DispatchCall → DispatchOutcome)
    (s : SessionState) (hstep : s.step = 2) (hsend : s.sending = false) :
    ((∀ x ∈ s.participants, incompleteSlot x = false) →
      (∃ x ∈ s.participants, badEmailSlot x = true) →
      generateAndDispatch rnd dispatch s =
        ⟨{ s with error := "Please enter valid email addresses" }, none, false⟩) ∧
    ((∃ x ∈ s.participants, incompleteSlot x = true) →
      generateAndDispatch rnd dispatch s =
        ⟨{ s with error := "Please fill in all participant details" }, none, false⟩) := by
  have hguard : (s.step == 2 && !s.sending) = true := by
    rw [hstep, hsend]; rfl
  constructor
  · intro h1 h2
    have ha1 : s.participants.any incompleteSlot = false :=
      List.any_eq_false.mpr (by simpa using h1)
    have ha2 : s.participants.any badEmailSlot = true :=
      List.any_eq_true.mpr (by simpa using h2)
    unfold generateAndDispatch generateAssignmentsHandler
    rw [hguard, if_pos rfl, ha1, ha2]
    simp
  · intro h1
    have ha1 : s.participants.any incompleteSlot = true :=
      List.any_eq_true.mpr (by simpa using h1)
    unfold generateAndDispatch generateAssignmentsHandler
    rw [hguard, if_pos rfl, ha1]
    simp

/-- Witness for C4 at the concrete bad-email state. -/
theorem santa_C4_witness :
    generateAndDispatch rndZero dispOk badEmailState =
      ⟨{ badEmailState with error := "Please enter valid email addresses" },
        none, false⟩ :=
  (santa_C4 rndZero dispOk badEmailState rfl rfl).1 (by decide) (by decide)

/-- JS `x || d` for a non-empty default never yields the empty string. -/
theorem jsOrO_ne_empty (x : Option String) (d : String) (hd : d ≠ "") :
    jsOrO x d ≠ "" := by
  cases x with
  | none => simpa [jsOrO, jsOrS] using hd
  | some m =>
    by_cases hm : m = ""
    · simpa [jsOrO, jsOrS, hm] using hd
    · simp [jsOrO, jsOrS, hm]

/-- The outer catch keeps a non-empty message unchanged. -/
theorem jsOrS_of_ne_empty (s d : String) (hs : s ≠ "") : jsOrS s d = s := by
  simp [jsOrS, hs]

/-- Claim C5 (amended): when validation and generation pass and the
collaborator answers `success: false`, the session's error message becomes
exactly the collaborator's message when a non-empty one is provided, and
otherwise the fallback `"Failed to send emails"` (from line 146; the generic
`"Failed to send assignments. Please try again."` of line 160 is not reached
because the thrown message is never empty); the step is unchanged and the
sending flag clears. -/
theorem santa_C5_amended (rnd : Nat → Nat → Nat)
    (dispatch : DispatchCall → DispatchOutcome) (s : SessionState)
    (as : List Assignment) (msg : Option String)
    (hstep : s.step = 2) (hsend : s.sending = false)
    (hv1 : ∀ x ∈ s.participants, incompleteSlot x = false)
    (hv2 : ∀ x ∈ s.participants, badEmailSlot x = false)
    (hgen : generateAssignments rnd s.participants = some as)
    (hdisp : dispatch ⟨as, s.eventDetails⟩ = .ok ⟨false, msg⟩) :
    (generateAndDispatch rnd dispatch s).state =
      { s with error := jsOrO msg "Failed to send emails", sending := false } ∧
    (∀ m, msg = some m → m ≠ "" →
      (generateAndDispatch rnd dispatch s).state.error = m) ∧
    ((msg = none ∨ msg = some "") →
      (generateAndDispatch rnd dispatch s).state.error = "Failed to send emails") ∧
    (generateAndDispatch rnd dispatch s).state.step = s.step ∧
    (generateAndDispatch rnd dispatch s).state.sending = false := by
  have hguard : (s.step == 2 && !s.sending) = true := by
    rw [hstep, hsend]; rfl
  have ha1 : s.participants.any incompleteSlot = false :=
    List.any_eq_false.mpr (by simpa using hv1)
  have ha2 : s.participants.any badEmailSlot = false :=
    List.any_eq_false.mpr (by simpa using hv2)
  have hres : generateAndDispatch rnd dispatch s =
      ⟨{ s with
          error := jsOrS (jsOrO msg "Failed to send emails")
            "Failed to send assignments. Please try again.",
          sending := false }, some ⟨as, s.eventDetails⟩, true⟩ := by
    unfold generateAndDispatch generateAssignmentsHandler
    rw [hguard, if_pos rfl, ha1, ha2, hgen]
    simp only [hdisp]
    rfl
  have hmsg : jsOrS (jsOrO msg "Failed to send emails")
      "Failed to send assignments. Please try again."
      = jsOrO msg "Failed to send emails" :=
    jsOrS_of_ne_empty _ _ (jsOrO_ne_empty msg _ (by decide))
  rw [hres, hmsg]
  refine ⟨rfl, ?_, ?_, rfl, rfl⟩
  · intro m hm hne
    subst hm
    simpa [jsOrO] using jsOrS_of_ne_empty m _ hne
  · intro hcase
    rcases hcase with hc | hc <;> subst hc <;> rfl

/-- Counterexample to claim C5 as stated: when the collaborator reports
failure without providing a message, the stored error is `"Failed to send
emails"` (line 146), not the claimed fallback `"Failed to send assignments.
Please try again."`. -/
theorem santa_C5_counterexample :
    (generateAndDispatch rndZero dispFailNoMsg okState).state.error
      = "Failed to send emails" ∧
    "Failed to send emails" ≠ "Failed to send assignments. Please try again." := by
  constructor
  · decide
  · decide

/-- Witness for the amended C5: the provided message `"quota exceeded"` is
stored verbatim. -/
theorem santa_C5_witness :
    (generateAndDispatch rndZero dispQuota okState).state.error = "quota exceeded" :=
  (santa_C5_amended rndZero dispQuota okState wAssignments (some "quota exceeded")
    rfl rfl (by decide) (by decide) rfl rfl).2.1 "quota exceeded" rfl (by decide)

/-- Claim C9: the event-details handler checks only truthiness, so the count
`"0"` is accepted, allocating an empty participants sequence and advancing
to step 2; a subsequent generate-and-dispatch on the empty sequence passes
both validation checks vacuously, runs the generator, succeeds with zero
retries, and calls the collaborator with an empty assignments list. -/
theorem santa_C9 (rnd : Nat → Nat → Nat) (dispatch : DispatchCall → DispatchOutcome)
    (s : SessionState)
    (hcount : s.eventDetails.participantCount = "0")
    (hdate : s.eventDetails.exchangeDate ≠ "")
    (hbudget : s.eventDetails.budget ≠ "")
    (hsend : s.sending = false) :
    handleEventDetailsSubmit s =
      some { s with participants := [], step := 2, error := "" } ∧
    (generateAndDispatch rnd dispatch
      { s with participants := [], step := 2, error := "" }).generatorRan = true ∧
    (generateAndDispatch rnd dispatch
      { s with participants := [], step := 2, error := "" }).dispatched =
      some ⟨[], s.eventDetails⟩ ∧
    santaLoop rnd (tagged []) (fisherYates (rnd 0) (tagged [])) 0 maxAttempts
      = ([], 0) := by
  have hsubmit : handleEventDetailsSubmit s =
      some { s with participants := [], step := 2, error := "" } := by
    unfold handleEventDetailsSubmit
    rw [hcount]
    have hc : (!truthyStr "0" || !truthyStr s.eventDetails.exchangeDate
        || !truthyStr s.eventDetails.budget) = false := by
      simp [truthyStr, hdate, hbudget]
    rw [hc]
    have hp : parseCount "0" = some 0 := by decide
    simp only [Bool.false_eq_true, if_false, hp]
    rfl
  set s1 : SessionState := { s with participants := [], step := 2, error := "" }
    with hs1
  have hgen : generateAssignments rnd ([] : List (Option PartObj)) = some [] := rfl
  have hrun : ∀ out : GenDispatchResult,
      out = generateAndDispatch rnd dispatch s1 →
      out.generatorRan = true ∧ out.dispatched = some ⟨[], s.eventDetails⟩ := by
    intro out hout
    have hguard : (s1.step == 2 && !s1.sending) = true := by
      rw [hs1]; simp [hsend]
    have hbody : generateAndDispatch rnd dispatch s1 =
        generateAssignmentsHandler rnd dispatch s1 := by
      unfold generateAndDispatch
      rw [hguard, if_pos rfl]
    rw [hout, hbody]
    have hps : s1.participants = [] := rfl
    unfold generateAssignmentsHandler
    rw [hps]
    simp only [List.any_nil, Bool.false_eq_true, if_false, hgen]
    have hed : s1.eventDetails = s.eventDetails := rfl
    rw [hed]
    cases hd : dispatch ⟨[], s.eventDetails⟩ with
    | threw m => exact ⟨rfl, rfl⟩
    | ok resp =>
      cases hsucc : resp.success
      · simp [hsucc]
      · simp [hsucc]
  exact ⟨hsubmit, (hrun _ rfl).1, (hrun _ rfl).2, rfl⟩

/-- Witness for C9 at the concrete zero-count state. -/
theorem santa_C9_witness :
    handleEventDetailsSubmit zeroCountState =
      some { zeroCountState with participants := [], step := 2, error := "" } ∧
    (generateAndDispatch rndZero dispOk
      { zeroCountState with participants := [], step := 2, error := "" }).dispatched
      = some ⟨[], zeroCountState.eventDetails⟩ :=
  ⟨(santa_C9 rndZero dispOk zeroCountState rfl (by decide) (by decide) rfl).1,
   (santa_C9 rndZero dispOk zeroCountState rfl (by decide) (by decide) rfl).2.2.1⟩

/-- Spread-updating field `f` leaves every other field of the slot as it
was (an absent slot contributes no fields). -/
theorem getField_setField (x : Option PartObj) (f g : FieldKey) (v : String)
    (h : g ≠ f) :
    getField (some (setField (x.getD ⟨none, none⟩) f v)) g = getField x g := by
  cases x <;> cases f <;> cases g <;>
    first
      | exact absurd rfl h
      | rfl

/-- Claim C7: for an in-bounds index, `handleParticipantChange` changes only
the named field of the participant at that index — the length, every other
position, and the other field of the updated slot are unchanged. -/
theorem santa_C7 (ps : List (Option PartObj)) (i : Nat) (f : FieldKey) (v : String)
    (h : i < ps.length) :
    (handleParticipantChange ps i f v).length = ps.length ∧
    (∀ j, j ≠ i → (handleParticipantChange ps i f v)[j]? = ps[j]?) ∧
    getField ((handleParticipantChange ps i f v).getD i none) f = some v ∧
    (∀ g, g ≠ f → getField ((handleParticipantChange ps i f v).getD i none) g
      = getField (ps.getD i none) g) := by
  have hred : handleParticipantChange ps i f v =
      ps.set i (some (setField ((ps.getD i none).getD ⟨none, none⟩) f v)) := by
    unfold handleParticipantChange
    rw [if_pos h]
  rw [hred]
  have hat : (ps.set i (some (setField ((ps.getD i none).getD ⟨none, none⟩) f v))).getD
      i none = some (setField ((ps.getD i none).getD ⟨none, none⟩) f v) := by
    rw [List.getD_eq_getElem?_getD, List.getElem?_set_eq_of_lt _ (by simpa using h)]
    rfl
  refine ⟨by simp, ?_, ?_, ?_⟩
  · intro j hj
    exact List.getElem?_set_ne (Ne.symm hj)
  · rw [hat]
    cases f <;> rfl
  · intro g hg
    rw [hat]
    exact getField_setField _ f g v hg

/-- Witness for C7 at a concrete in-bounds update. -/
theorem santa_C7_witness :
    (handleParticipantChange wParticipants 1 FieldKey.email "new@mail.co").length
      = wParticipants.length ∧
    getField ((handleParticipantChange wParticipants 1 FieldKey.email
      "new@mail.co").getD 1 none) FieldKey.email = some "new@mail.co" :=
  ⟨(santa_C7 wParticipants 1 FieldKey.email "new@mail.co" (by decide)).1,
   (santa_C7 wParticipants 1 FieldKey.email "new@mail.co" (by decide)).2.2.1⟩

/-- Claim C10: for an out-of-bounds index, `handleParticipantChange` does
not fail: the array grows to length `i + 1`, existing positions are
unchanged, the skipped positions are holes (not blank participants), and
position `i` holds an object carrying only the updated field — so the
length-preservation of C7 indeed needs its in-bounds precondition. -/
theorem santa_C10 (ps : List (Option PartObj)) (i : Nat) (f : FieldKey) (v : String)
    (h : ps.length ≤ i) :
    (handleParticipantChange ps i f v).length = i + 1 ∧
    (∀ j, j < ps.length → (handleParticipantChange ps i f v)[j]? = ps[j]?) ∧
    (∀ j, ps.length ≤ j → j < i →
      (handleParticipantChange ps i f v)[j]? = some none) ∧
    (handleParticipantChange ps i f v)[i]? =
      some (some (setField ⟨none, none⟩ f v)) ∧
    getField ((handleParticipantChange ps i f v).getD i none) f = some v ∧
    (∀ g, g ≠ f →
      getField ((handleParticipantChange ps i f v).getD i none) g = none) := by
  have hbase : (ps.getD i none).getD ⟨none, none⟩ = (⟨none, none⟩ : PartObj) := by
    rw [List.getD_eq_default _ _ h]
    rfl
  have hred : handleParticipantChange ps i f v =
      ps ++ List.replicate (i - ps.length) none ++ [some (setField ⟨none, none⟩ f v)] := by
    unfold handleParticipantChange
    rw [if_neg (by omega), hbase]
  have hleft : (ps ++ List.replicate (i - ps.length) none).length = i := by
    simp
    omega
  have hati : (ps ++ List.replicate (i - ps.length) none
      ++ [some (setField ⟨none, none⟩ f v)])[i]? =
      some (some (setField ⟨none, none⟩ f v)) := by
    rw [List.getElem?_append_right (by omega)]
    simp [hleft]
  refine ⟨?_, ?_, ?_, ?_, ?_, ?_⟩
  · rw [hred]
    simp
    omega
  · intro j hj
    rw [hred, List.getElem?_append_left (by omega),
      List.getElem?_append_left (by omega)]
  · intro j hj1 hj2
    rw [hred, List.getElem?_append_left (by omega),
      List.getElem?_append_right (by omega),
      List.getElem?_replicate_of_lt (by omega)]
  · rw [hred]
    exact hati
  · rw [hred, List.getD_eq_getElem?_getD, hati]
    cases f <;> rfl
  · intro g hg
    rw [hred, List.getD_eq_getElem?_getD, hati]
    cases f <;> cases g <;>
      first
        | exact absurd rfl hg
        | rfl

/-- Witness for C10 at a concrete out-of-bounds update: one existing slot,
update at index 2. -/
theorem santa_C10_witness :
    (handleParticipantChange wSingle 2 FieldKey.name "Late").length = 3 ∧
    (handleParticipantChange wSingle 2 FieldKey.name "Late")[1]? = some none :=
  ⟨(santa_C10 wSingle 2 FieldKey.name "Late" (by decide)).1,
   (santa_C10 wSingle 2 FieldKey.name "Late" (by decide)).2.2.1 1 (by decide) (by decide)⟩
